import Mathlib

/-!
Shallow embedding of `src/services/auto_close_scheduler.py`
(class `AutoCloseScheduler`) from the Telegram-Business repository.

Modelling conventions:
* Monetary amounts (Python `Decimal` values rendered with the format
  spec `:,.2f`) are embedded as integer numbers of cents; `formatMoney`
  reproduces the `:,.2f` rendering (two decimals, thousands separated
  by commas) on that representation.
* The collaborators (`ShiftService.check_and_auto_close_shifts`,
  `ShiftService.get_shift_income_summary`, `AutosumBusinessBot.send_message`)
  are external; a `Behavior` value fixes what each call returns in a
  cycle, where `ExnOr.exn msg` models the call raising an exception
  whose rendered text is `msg`.
* Each embedded method returns the list of observable events it
  performs (log lines via `force_log`, collaborator calls) paired with
  `Option String`: `some e` means the exception `e` escapes the
  function, `none` means it returns normally.  Python's
  `try/except Exception` blocks are translated explicitly, so the
  claim that every exception is caught is a real theorem about the
  wrappers, not a by-construction triviality of the body.
* `traceback.format_exc()` is an opaque runtime string; it is
  abstracted by the exception text itself in the corresponding log
  events.
-/

/-- A record returned by `ShiftService.check_and_auto_close_shifts`:
the Python dict `{id, chat_id, number}`. -/
structure ClosedShiftRecord where
  id : Int
  chat_id : Int
  number : Int
deriving DecidableEq, Repr

/-- Per-currency data in an income summary: the Python dict
`{amount, count}`, with `amount` in cents. -/
structure CurrencyData where
  amount : Int
  count : Nat
deriving DecidableEq, Repr

/-- The result of `ShiftService.get_shift_income_summary`: transaction
count, total amount (cents), and the per-currency breakdown in the
dict's insertion order. -/
structure IncomeSummary where
  transaction_count : Nat
  total_amount : Int
  currencies : List (String × CurrencyData)
deriving DecidableEq, Repr

/-- Result of one collaborator call: a normal return or a raised
exception carrying its rendered message. -/
inductive ExnOr (α : Type) where
  | ok (a : α)
  | exn (msg : String)
deriving DecidableEq, Repr

/-- The behaviour of the collaborators during one check cycle. -/
structure Behavior where
  closeShifts : ExnOr (List ClosedShiftRecord)
  getSummary : Int → Int → ExnOr IncomeSummary
  sendMessage : Int → String → ExnOr Bool

/-- Observable events of the scheduler: log lines (`force_log`), the
store mutation `check_and_auto_close_shifts`, the read-only summary
fetch `get_shift_income_summary`, the bot call `send_message`, and
`asyncio.sleep`. -/
inductive Event where
  | log (s : String)
  | storeClose
  | storeGetSummary (shiftId chatId : Int)
  | botSend (chatId : Int) (text : String)
  | sleep (secs : Nat)
deriving DecidableEq, Repr

/-! ### Number formatting (Python `:,.2f` on cent amounts) -/

/-- Split a reversed digit list into groups of three (thousands
grouping works from the least significant digit). -/
def chunk3 : List Char → List (List Char)
  | a :: b :: c :: d :: rest => [a, b, c] :: chunk3 (d :: rest)
  | [] => []
  | l => [l]

/-- Render a natural number with commas as thousands separators, as
Python's `:,` format spec does for the integer part. -/
def groupThousands (n : Nat) : String :=
  String.mk ((((toString n).data.reverse |> chunk3).intersperse [',']).flatten.reverse)

/-- Two-digit zero-padded rendering of a value below 100. -/
def pad2 (k : Nat) : String :=
  if k < 10 then "0" ++ toString k else toString k

/-- Python `f"{x:,.2f}"` on a decimal amount represented as `cents`
hundredths: sign, comma-grouped integer part, dot, two decimals. -/
def formatMoney (cents : Int) : String :=
  (if cents < 0 then "-" else "")
    ++ groupThousands (cents.natAbs / 100) ++ "." ++ pad2 (cents.natAbs % 100)

/-- Python `repr` of a list of ints, as interpolated by
`f"... {[shift['id'] for shift in closed_shifts]}"`. -/
def pyIntList (l : List Int) : String :=
  "[" ++ String.intercalate ", " (l.map toString) ++ "]"

/-! ### Message formatting (`_send_shift_summary`, lines 80-113) -/

/-- The currency-symbol selection on line 84-86:
`currency if currency in ["$", "៛"] else f"{currency}"`
(an f-string interpolation of a string is the string itself). -/
def currencySymbol (currency : String) : String :=
  if currency = "$" ∨ currency = "៛" then currency else currency

/-- One breakdown line, line 88:
`f"• {currency_symbol}{data['amount']:,.2f} ({data['count']} transactions)"`. -/
def currencyLine (currency : String) (data : CurrencyData) : String :=
  "• " ++ currencySymbol currency ++ formatMoney data.amount
    ++ " (" ++ toString data.count ++ " transactions)"

/-- Python's `"\n".join`, mirrored structurally for easy induction. -/
def joinNL : List String → String
  | [] => ""
  | [x] => x
  | x :: y :: rest => x ++ "\n" ++ joinNL (y :: rest)

/-- The notification text built on lines 80-113, after `.strip()`:
if `transaction_count > 0`, the per-currency breakdown joined by
newlines plus the totals block, else the no-transactions variant;
both carry the shift number header and the auto-closed-by-timer
footer. -/
def formatShiftMessage (shiftNumber : Int) (summary : IncomeSummary) : String :=
  if summary.transaction_count > 0 then
    "🔒 **វេន #" ++ toString shiftNumber ++ " បានបិទដោយស្វ័យប្រវត្តិ**\n\n📊 **សរុបចំណូល:**\n"
      ++ joinNL (summary.currencies.map fun p => currencyLine p.1 p.2)
      ++ "\n\n📝 **ព័ត៌មានលម្អិត:**\n• ចំនួនប្រតិបត្តិការសរុប: "
      ++ toString summary.transaction_count
      ++ "\n• តម្លៃសរុប: " ++ formatMoney summary.total_amount
      ++ "\n\n⚡ បិទដោយ: ការកំណត់ពេលវេលាស្វ័យប្រវត្តិ"
  else
    "🔒 **វេន #" ++ toString shiftNumber ++ " បានបិទដោយស្វ័យប្រវត្តិ**\n\n📊 **សរុបចំណូល:**\n"
      ++ "• មិនមានប្រតិបត្តិការ"
      ++ "\n\n⚡ បិទដោយ: ការកំណត់ពេលវេលាស្វ័យប្រវត្តិ"

/-! ### The scheduler methods -/

/-- Body of `_send_shift_summary` inside its `try` (lines 69-122):
fetch the summary, format the message, send it, log the boolean
outcome.  `some e` in the second component is an exception escaping
the body. -/
def sendShiftSummaryBody (b : Behavior) (shift : ClosedShiftRecord) :
    List Event × Option String :=
  match b.getSummary shift.id shift.chat_id with
  | .exn e => ([Event.storeGetSummary shift.id shift.chat_id], some e)
  | .ok summary =>
    match b.sendMessage shift.chat_id (formatShiftMessage shift.number summary) with
    | .exn e =>
        ([Event.storeGetSummary shift.id shift.chat_id,
          Event.botSend shift.chat_id (formatShiftMessage shift.number summary)], some e)
    | .ok true =>
        ([Event.storeGetSummary shift.id shift.chat_id,
          Event.botSend shift.chat_id (formatShiftMessage shift.number summary),
          Event.log ("Sent shift summary for shift " ++ toString shift.id
            ++ " to chat " ++ toString shift.chat_id)], none)
    | .ok false =>
        ([Event.storeGetSummary shift.id shift.chat_id,
          Event.botSend shift.chat_id (formatShiftMessage shift.number summary),
          Event.log ("Failed to send shift summary for shift " ++ toString shift.id
            ++ " to chat " ++ toString shift.chat_id)], none)

/-- `_send_shift_summary` (lines 67-130): the body wrapped in
`try/except Exception`, which logs the error with the shift id and a
traceback and returns normally. -/
def sendShiftSummary (b : Behavior) (shift : ClosedShiftRecord) :
    List Event × Option String :=
  match sendShiftSummaryBody b shift with
  | (tr, none) => (tr, none)
  | (tr, some e) =>
      (tr ++ [Event.log ("Error sending shift summary for shift "
                ++ toString shift.id ++ ": " ++ e),
              Event.log ("Shift summary error traceback: " ++ e)], none)

/-- The per-shift block of the `for` loop on lines 50-57: log the
closure, then call `_send_shift_summary` only when `self.bot_service`
is truthy (`bot`). -/
def perShift (bot : Bool) (b : Behavior) (shift : ClosedShiftRecord) : List Event :=
  Event.log ("Auto-closed shift " ++ toString shift.id
      ++ " for chat " ++ toString shift.chat_id)
    :: (if bot then (sendShiftSummary b shift).1 else [])

/-- Body of `check_auto_close_shifts` inside its `try` (lines 41-59):
call the store's close operation, then either report the closed
shifts and notify each, or log the no-op outcome. -/
def checkBody (bot : Bool) (b : Behavior) : List Event × Option String :=
  match b.closeShifts with
  | .exn e => ([Event.storeClose], some e)
  | .ok closed =>
    if closed.isEmpty then
      ([Event.storeClose, Event.log "No shifts needed auto-closing"], none)
    else
      (Event.storeClose
        :: Event.log ("Auto-closed " ++ toString closed.length ++ " shifts: "
             ++ pyIntList (closed.map (·.id)))
        :: (closed.map (perShift bot b)).flatten, none)

/-- `check_auto_close_shifts` (lines 36-65): the opening log, then the
body wrapped in `try/except Exception`, which logs the error and a
traceback and returns normally. -/
def checkAutoCloseShifts (bot : Bool) (b : Behavior) : List Event × Option String :=
  match checkBody bot b with
  | (tr, none) => (Event.log "Starting auto-close shift check..." :: tr, none)
  | (tr, some e) =>
      (Event.log "Starting auto-close shift check..."
        :: tr ++ [Event.log ("Error in auto-close shift check: " ++ e),
                  Event.log ("Traceback: " ++ e)], none)

/-- One iteration of the `while self.is_running` loop (lines 21-29):
run the check cycle, then sleep 60 s; if the cycle raised, log the
loop-level error and still sleep 60 s. -/
def loopBody (bot : Bool) (b : Behavior) : List Event × Option String :=
  match checkAutoCloseShifts bot b with
  | (tr, none) => (tr ++ [Event.sleep 60], none)
  | (tr, some e) =>
      (tr ++ [Event.log ("Error in auto-close scheduler loop: " ++ e),
              Event.sleep 60], none)

/-- The `while self.is_running` loop, fuel-indexed.  `beh n` is the
collaborator behaviour during cycle `n`; `stopped n = true` means
`stop_scheduler` has set `is_running = False` by the time the loop
re-reads it at the top of iteration `n`.  Fuel `0` cuts off an
infinite trace; it does not model termination. -/
def runLoop (bot : Bool) (beh : Nat → Behavior) (stopped : Nat → Bool) :
    Nat → Nat → List Event
  | 0, _ => []
  | fuel + 1, n =>
    if stopped n then []
    else (loopBody bot (beh n)).1 ++ runLoop bot beh stopped fuel (n + 1)

/-- The scheduler's own state: the `is_running` flag set in
`__init__`/`start_scheduler`/`stop_scheduler`. -/
structure SchedulerState where
  is_running : Bool
deriving DecidableEq, Repr

/-- `stop_scheduler` (lines 31-34): clear the flag and log; returns
normally (no exception). -/
def stopScheduler (_s : SchedulerState) : SchedulerState × List Event × Option String :=
  ({ is_running := false }, [Event.log "Auto-close scheduler stopped"], none)

/-- `start_scheduler` (lines 16-29): set the flag, log the start
banner, and run the loop from iteration 0. -/
def startScheduler (bot : Bool) (beh : Nat → Behavior) (stopped : Nat → Bool)
    (fuel : Nat) : SchedulerState × List Event :=
  ({ is_running := true },
   Event.log "Auto-close scheduler started - will run every minute"
     :: runLoop bot beh stopped fuel 0)

/-! ### Event counting helpers -/

/-- Is this event a call into the notification sub-step's summary
fetch?  `_send_shift_summary` performs exactly one such call at its
start, so counting these events counts notification attempts. -/
def isGetSummary : Event → Bool
  | .storeGetSummary _ _ => true
  | _ => false

/-- Is this event a `send_message` call on the bot service? -/
def isSend : Event → Bool
  | .botSend _ _ => true
  | _ => false

/-- Is this event the store's mutating check-and-close call? -/
def isStoreClose : Event → Bool
  | .storeClose => true
  | _ => false

/-- Number of notification attempts (summary fetches) in a trace. -/
def countGetSummary (tr : List Event) : Nat := tr.countP isGetSummary

/-- Number of `send_message` calls in a trace. -/
def countSend (tr : List Event) : Nat := tr.countP isSend

/-- Number of store mutations (check-and-close calls) in a trace. -/
def countStoreClose (tr : List Event) : Nat := tr.countP isStoreClose

/-- Substring containment on strings, via infixes of the character
lists. -/
def strContains (s sub : String) : Prop := sub.data <:+: s.data

instance (s sub : String) : Decidable (strContains s sub) :=
  List.decidableInfix sub.data s.data

/-! ### Helper lemmas -/

theorem sendShiftSummary_snd_none (b : Behavior) (shift : ClosedShiftRecord) :
    (sendShiftSummary b shift).2 = none := by
  rcases hg : b.getSummary shift.id shift.chat_id with s | e
  · rcases hs : b.sendMessage shift.chat_id (formatShiftMessage shift.number s) with bb | e
    · cases bb <;> simp [sendShiftSummary, sendShiftSummaryBody, hg, hs]
    · simp [sendShiftSummary, sendShiftSummaryBody, hg, hs]
  · simp [sendShiftSummary, sendShiftSummaryBody, hg]

theorem sendShiftSummary_count_get (b : Behavior) (shift : ClosedShiftRecord) :
    countGetSummary (sendShiftSummary b shift).1 = 1 := by
  rcases hg : b.getSummary shift.id shift.chat_id with s | e
  · rcases hs : b.sendMessage shift.chat_id (formatShiftMessage shift.number s) with bb | e
    · cases bb <;>
        simp [sendShiftSummary, sendShiftSummaryBody, hg, hs, countGetSummary,
          isGetSummary, List.countP_cons, List.countP_append]
    · simp [sendShiftSummary, sendShiftSummaryBody, hg, hs, countGetSummary,
        isGetSummary, List.countP_cons, List.countP_append]
  · simp [sendShiftSummary, sendShiftSummaryBody, hg, countGetSummary,
      isGetSummary, List.countP_cons, List.countP_append]

theorem sendShiftSummary_count_send_le_one (b : Behavior) (shift : ClosedShiftRecord) :
    countSend (sendShiftSummary b shift).1 ≤ 1 := by
  rcases hg : b.getSummary shift.id shift.chat_id with s | e
  · rcases hs : b.sendMessage shift.chat_id (formatShiftMessage shift.number s) with bb | e
    · cases bb <;>
        simp [sendShiftSummary, sendShiftSummaryBody, hg, hs, countSend,
          isSend, List.countP_cons, List.countP_append]
    · simp [sendShiftSummary, sendShiftSummaryBody, hg, hs, countSend,
        isSend, List.countP_cons, List.countP_append]
  · simp [sendShiftSummary, sendShiftSummaryBody, hg, countSend,
      isSend, List.countP_cons, List.countP_append]

theorem sendShiftSummary_count_close (b : Behavior) (shift : ClosedShiftRecord) :
    countStoreClose (sendShiftSummary b shift).1 = 0 := by
  rcases hg : b.getSummary shift.id shift.chat_id with s | e
  · rcases hs : b.sendMessage shift.chat_id (formatShiftMessage shift.number s) with bb | e
    · cases bb <;>
        simp [sendShiftSummary, sendShiftSummaryBody, hg, hs, countStoreClose,
          isStoreClose, List.countP_cons, List.countP_append]
    · simp [sendShiftSummary, sendShiftSummaryBody, hg, hs, countStoreClose,
        isStoreClose, List.countP_cons, List.countP_append]
  · simp [sendShiftSummary, sendShiftSummaryBody, hg, countStoreClose,
      isStoreClose, List.countP_cons, List.countP_append]

theorem perShift_count_get_true (b : Behavior) (r : ClosedShiftRecord) :
    countGetSummary (perShift true b r) = 1 := by
  simp [perShift, countGetSummary, isGetSummary, List.countP_cons]
  have h := sendShiftSummary_count_get b r
  simpa [countGetSummary] using h

theorem perShift_count_get_false (b : Behavior) (r : ClosedShiftRecord) :
    countGetSummary (perShift false b r) = 0 := by
  simp [perShift, countGetSummary, isGetSummary, List.countP_cons]

theorem perShift_count_send_false (b : Behavior) (r : ClosedShiftRecord) :
    countSend (perShift false b r) = 0 := by
  simp [perShift, countSend, isSend, List.countP_cons]

theorem perShift_count_close (bot : Bool) (b : Behavior) (r : ClosedShiftRecord) :
    countStoreClose (perShift bot b r) = 0 := by
  cases bot
  · simp [perShift, countStoreClose, isStoreClose, List.countP_cons]
  · simp [perShift, countStoreClose, isStoreClose, List.countP_cons]
    have h := sendShiftSummary_count_close b r
    simpa [countStoreClose] using h

theorem flatten_count_get_true (b : Behavior) (recs : List ClosedShiftRecord) :
    countGetSummary ((recs.map (perShift true b)).flatten) = recs.length := by
  induction recs with
  | nil => rfl
  | cons r rs ih =>
    have h1 := perShift_count_get_true b r
    simp only [List.map_cons, List.flatten_cons, countGetSummary,
      List.countP_append, List.length_cons]
    simp only [countGetSummary] at h1 ih
    omega

theorem flatten_count_get_false (b : Behavior) (recs : List ClosedShiftRecord) :
    countGetSummary ((recs.map (perShift false b)).flatten) = 0 := by
  induction recs with
  | nil => rfl
  | cons r rs ih =>
    have h1 := perShift_count_get_false b r
    simp only [List.map_cons, List.flatten_cons, countGetSummary, List.countP_append]
    simp only [countGetSummary] at h1 ih
    omega

theorem flatten_count_send_false (b : Behavior) (recs : List ClosedShiftRecord) :
    countSend ((recs.map (perShift false b)).flatten) = 0 := by
  induction recs with
  | nil => rfl
  | cons r rs ih =>
    have h1 := perShift_count_send_false b r
    simp only [List.map_cons, List.flatten_cons, countSend, List.countP_append]
    simp only [countSend] at h1 ih
    omega

theorem flatten_count_close (bot : Bool) (b : Behavior) (recs : List ClosedShiftRecord) :
    countStoreClose ((recs.map (perShift bot b)).flatten) = 0 := by
  induction recs with
  | nil => rfl
  | cons r rs ih =>
    have h1 := perShift_count_close bot b r
    simp only [List.map_cons, List.flatten_cons, countStoreClose, List.countP_append]
    simp only [countStoreClose] at h1 ih
    omega

theorem check_snd_none (bot : Bool) (b : Behavior) :
    (checkAutoCloseShifts bot b).2 = none := by
  rcases hc : b.closeShifts with closed | e
  · rcases closed with _ | ⟨r, rs⟩ <;>
      simp [checkAutoCloseShifts, checkBody, hc]
  · simp [checkAutoCloseShifts, checkBody, hc]

theorem storeClose_mem_check (bot : Bool) (b : Behavior) :
    Event.storeClose ∈ (checkAutoCloseShifts bot b).1 := by
  rcases hc : b.closeShifts with closed | e
  · rcases closed with _ | ⟨r, rs⟩ <;>
      simp [checkAutoCloseShifts, checkBody, hc]
  · simp [checkAutoCloseShifts, checkBody, hc]

theorem check_trace_nil (bot : Bool) (b : Behavior)
    (hc : b.closeShifts = .ok []) :
    (checkAutoCloseShifts bot b).1 =
      [Event.log "Starting auto-close shift check...",
       Event.storeClose,
       Event.log "No shifts needed auto-closing"] := by
  simp [checkAutoCloseShifts, checkBody, hc]

theorem check_trace_cons (bot : Bool) (b : Behavior) (r : ClosedShiftRecord)
    (rs : List ClosedShiftRecord) (hc : b.closeShifts = .ok (r :: rs)) :
    (checkAutoCloseShifts bot b).1 =
      Event.log "Starting auto-close shift check..."
        :: Event.storeClose
        :: Event.log ("Auto-closed " ++ toString (r :: rs).length ++ " shifts: "
             ++ pyIntList ((r :: rs).map (·.id)))
        :: ((r :: rs).map (perShift bot b)).flatten := by
  simp [checkAutoCloseShifts, checkBody, hc]

theorem check_trace_exn (bot : Bool) (b : Behavior) (e : String)
    (hc : b.closeShifts = .exn e) :
    (checkAutoCloseShifts bot b).1 =
      [Event.log "Starting auto-close shift check...",
       Event.storeClose,
       Event.log ("Error in auto-close shift check: " ++ e),
       Event.log ("Traceback: " ++ e)] := by
  simp [checkAutoCloseShifts, checkBody, hc]

theorem check_count_close (bot : Bool) (b : Behavior) :
    countStoreClose (checkAutoCloseShifts bot b).1 = 1 := by
  rcases hc : b.closeShifts with closed | e
  · rcases closed with _ | ⟨r, rs⟩
    · rw [check_trace_nil bot b hc]
      rfl
    · rw [check_trace_cons bot b r rs hc]
      have h1 := flatten_count_close bot b (r :: rs)
      simp only [countStoreClose, List.countP_cons] at h1 ⊢
      rw [h1]
      rfl
  · rw [check_trace_exn bot b e hc]
    rfl

theorem loopBody_eq (bot : Bool) (b : Behavior) :
    loopBody bot b = ((checkAutoCloseShifts bot b).1 ++ [Event.sleep 60], none) := by
  have h := check_snd_none bot b
  unfold loopBody
  rcases hc : checkAutoCloseShifts bot b with ⟨tr, exn⟩
  rw [hc] at h
  simp at h
  subst h
  rfl

theorem runLoop_succ (bot : Bool) (beh : Nat → Behavior) (stopped : Nat → Bool)
    (fuel n : Nat) (h : stopped n = false) :
    runLoop bot beh stopped (fuel + 1) n =
      ((checkAutoCloseShifts bot (beh n)).1 ++ [Event.sleep 60])
        ++ runLoop bot beh stopped fuel (n + 1) := by
  rw [runLoop, h, loopBody_eq]
  simp

theorem runLoop_stopped (bot : Bool) (beh : Nat → Behavior) (stopped : Nat → Bool)
    (fuel n : Nat) (h : stopped n = true) :
    runLoop bot beh stopped fuel n = [] := by
  cases fuel
  · rfl
  · rw [runLoop, h]
    simp

theorem getSummary_mem_send (b : Behavior) (shift : ClosedShiftRecord) :
    Event.storeGetSummary shift.id shift.chat_id ∈ (sendShiftSummary b shift).1 := by
  rcases hg : b.getSummary shift.id shift.chat_id with s | e
  · rcases hs : b.sendMessage shift.chat_id (formatShiftMessage shift.number s) with bb | e
    · cases bb <;> simp [sendShiftSummary, sendShiftSummaryBody, hg, hs]
    · simp [sendShiftSummary, sendShiftSummaryBody, hg, hs]
  · simp [sendShiftSummary, sendShiftSummaryBody, hg]

theorem errlog_mem_send_of_getSummary_exn {b : Behavior} {shift : ClosedShiftRecord}
    {e : String} (hg : b.getSummary shift.id shift.chat_id = .exn e) :
    Event.log ("Error sending shift summary for shift " ++ toString shift.id ++ ": " ++ e)
      ∈ (sendShiftSummary b shift).1 := by
  simp [sendShiftSummary, sendShiftSummaryBody, hg]

theorem errlog_mem_send_of_send_exn {b : Behavior} {shift : ClosedShiftRecord}
    {s : IncomeSummary} {e : String}
    (hg : b.getSummary shift.id shift.chat_id = .ok s)
    (hs : b.sendMessage shift.chat_id (formatShiftMessage shift.number s) = .exn e) :
    Event.log ("Error sending shift summary for shift " ++ toString shift.id ++ ": " ++ e)
      ∈ (sendShiftSummary b shift).1 := by
  simp [sendShiftSummary, sendShiftSummaryBody, hg, hs]

theorem faillog_mem_send {b : Behavior} {shift : ClosedShiftRecord} {s : IncomeSummary}
    (hg : b.getSummary shift.id shift.chat_id = .ok s)
    (hs : b.sendMessage shift.chat_id (formatShiftMessage shift.number s) = .ok false) :
    Event.log ("Failed to send shift summary for shift " ++ toString shift.id
      ++ " to chat " ++ toString shift.chat_id) ∈ (sendShiftSummary b shift).1 := by
  simp [sendShiftSummary, sendShiftSummaryBody, hg, hs]

theorem mem_check_of_mem_send {b : Behavior} {recs : List ClosedShiftRecord}
    (hc : b.closeShifts = .ok recs) {shift : ClosedShiftRecord} (hs : shift ∈ recs)
    {ev : Event} (he : ev ∈ (sendShiftSummary b shift).1) :
    ev ∈ (checkAutoCloseShifts true b).1 := by
  rcases recs with _ | ⟨r, rs⟩
  · cases hs
  · rw [check_trace_cons true b r rs hc]
    have hmem : ev ∈ ((r :: rs).map (perShift true b)).flatten := by
      refine List.mem_flatten.mpr ⟨perShift true b shift, List.mem_map_of_mem _ hs, ?_⟩
      simp [perShift, he]
    exact List.mem_cons_of_mem _ (List.mem_cons_of_mem _ (List.mem_cons_of_mem _ hmem))

/-! ### Substring containment helpers -/

theorem strContains_self (s : String) : strContains s s :=
  ⟨[], [], by simp⟩

theorem strContains_appendLeft {s1 sub : String} (h : strContains s1 sub) (s2 : String) :
    strContains (s1 ++ s2) sub := by
  obtain ⟨u, v, huv⟩ := h
  exact ⟨u, v ++ s2.data, by rw [String.data_append, ← huv]; simp⟩

theorem strContains_appendRight {s2 sub : String} (h : strContains s2 sub) (s1 : String) :
    strContains (s1 ++ s2) sub := by
  obtain ⟨u, v, huv⟩ := h
  exact ⟨s1.data ++ u, v, by rw [String.data_append, ← huv]; simp⟩

theorem strContains_of_suffix {s sub : String} (h : sub.data <:+ s.data) :
    strContains s sub := by
  obtain ⟨u, hu⟩ := h
  exact ⟨u, [], by simp [hu]⟩

theorem strContains_lit_append {lit sub : String} (h : sub.data <:+ lit.data)
    (t : String) : strContains (lit ++ t) (sub ++ t) := by
  obtain ⟨u, hu⟩ := h
  refine ⟨u, [], ?_⟩
  rw [String.data_append, String.data_append, ← hu]
  simp

theorem strContains_joinNL {x : String} {l : List String} (h : x ∈ l) :
    strContains (joinNL l) x := by
  induction l with
  | nil => cases h
  | cons a rest ih =>
    rcases rest with _ | ⟨y, rs⟩
    · rcases List.mem_singleton.mp h with rfl
      exact strContains_self x
    · rcases List.mem_cons.mp h with rfl | hx
      · exact strContains_appendLeft (strContains_appendLeft (strContains_self x) "\n") _
      · exact strContains_appendRight (ih hx) _

theorem strContains_append_lit_append {A lit sub : String} (h : sub.data <:+ lit.data)
    (t : String) : strContains ((A ++ lit) ++ t) (sub ++ t) := by
  obtain ⟨u, hu⟩ := h
  refine ⟨A.data ++ u, [], ?_⟩
  rw [String.data_append, String.data_append, String.data_append, ← hu]
  simp

/-! ### Example fixtures for the witness theorems -/

/-- A sample closed-shift record whose summary fetch will fail. -/
def exRec1 : ClosedShiftRecord := ⟨1, -100, 5⟩

/-- A sample closed-shift record whose notification goes through. -/
def exRec2 : ClosedShiftRecord := ⟨2, 200, 6⟩

/-- The spec's example summary: 3 transactions, currencies
`$ -> (45.50, 2)` and `៛ -> (1000.00, 1)` (amounts in cents). -/
def exSummary : IncomeSummary := ⟨3, 104550, [("$", ⟨4550, 2⟩), ("៛", ⟨100000, 1⟩)]⟩

/-- Behaviour: two shifts close; shift 1's summary fetch raises,
shift 2's send returns `False`. -/
def exBehavior : Behavior :=
  { closeShifts := ExnOr.ok [exRec1, exRec2]
    getSummary := fun sid _ => if sid = 1 then ExnOr.exn "boom" else ExnOr.ok exSummary
    sendMessage := fun _ _ => ExnOr.ok false }

/-- Behaviour: no shift is eligible for closing. -/
def exEmptyBehavior : Behavior :=
  { closeShifts := ExnOr.ok []
    getSummary := fun _ _ => ExnOr.ok exSummary
    sendMessage := fun _ _ => ExnOr.ok true }

/-- Behaviour: the close operation itself raises. -/
def exFailBehavior : Behavior :=
  { closeShifts := ExnOr.exn "db down"
    getSummary := fun _ _ => ExnOr.ok exSummary
    sendMessage := fun _ _ => ExnOr.ok true }

/-- The close operation raises in every cycle. -/
def exBehSeq : Nat → Behavior := fun _ => exFailBehavior

/-- The scheduler is never stopped. -/
def exStopNever : Nat → Bool := fun _ => false

/-- The scheduler is stopped during cycle 0: the flag reads `false` at
the top of iteration 0 and `true` from iteration 1 on. -/
def exStopAfter1 : Nat → Bool := fun n => decide (0 < n)

/-! ### Claim theorems -/

/-- C1: in every cycle whose close operation returns a list of closed
shift records, the number of notification attempts (calls into the
`_send_shift_summary` sub-step, each performing exactly one summary
fetch) equals the number of records in the list — one attempt per
auto-closed shift, no more, no less.  The scheduler is constructed
with an `AutosumBusinessBot` bot service, so the line-56 truthiness
guard passes (`bot = true`). -/
theorem auto_close_notification_count (b : Behavior) (recs : List ClosedShiftRecord)
    (h : b.closeShifts = ExnOr.ok recs) :
    countGetSummary (checkAutoCloseShifts true b).1 = recs.length := by
  rcases recs with _ | ⟨r, rs⟩
  · rw [check_trace_nil true b h]
    rfl
  · rw [check_trace_cons true b r rs h]
    have h1 := flatten_count_get_true b (r :: rs)
    simp only [countGetSummary, List.countP_cons] at h1 ⊢
    rw [h1]
    rfl

/-- Witness for C1: the concrete behaviour closing two shifts yields
exactly two notification attempts. -/
theorem auto_close_notification_count_witness :
    countGetSummary (checkAutoCloseShifts true exBehavior).1 = 2 :=
  auto_close_notification_count exBehavior [exRec1, exRec2] rfl

/-- C2: if summarizing or notifying one closed shift fails (summary
fetch raises, delivery raises, or delivery returns failure), the
error is caught and logged with that shift's id, and the notification
attempt for every shift in the cycle's list — whatever the behaviour
on the others — is still performed (its summary fetch occurs). -/
theorem per_shift_failure_isolation (b : Behavior) (recs : List ClosedShiftRecord)
    (h : b.closeShifts = ExnOr.ok recs) (shift : ClosedShiftRecord) (hs : shift ∈ recs) :
    Event.storeGetSummary shift.id shift.chat_id ∈ (checkAutoCloseShifts true b).1 ∧
    (∀ e, b.getSummary shift.id shift.chat_id = ExnOr.exn e →
      Event.log ("Error sending shift summary for shift " ++ toString shift.id ++ ": " ++ e)
        ∈ (checkAutoCloseShifts true b).1) ∧
    (∀ s e, b.getSummary shift.id shift.chat_id = ExnOr.ok s →
      b.sendMessage shift.chat_id (formatShiftMessage shift.number s) = ExnOr.exn e →
      Event.log ("Error sending shift summary for shift " ++ toString shift.id ++ ": " ++ e)
        ∈ (checkAutoCloseShifts true b).1) ∧
    (∀ s, b.getSummary shift.id shift.chat_id = ExnOr.ok s →
      b.sendMessage shift.chat_id (formatShiftMessage shift.number s) = ExnOr.ok false →
      Event.log ("Failed to send shift summary for shift " ++ toString shift.id
        ++ " to chat " ++ toString shift.chat_id) ∈ (checkAutoCloseShifts true b).1) := by
  refine ⟨?_, ?_, ?_, ?_⟩
  · exact mem_check_of_mem_send h hs (getSummary_mem_send b shift)
  · intro e hg
    exact mem_check_of_mem_send h hs (errlog_mem_send_of_getSummary_exn hg)
  · intro s e hg hsend
    exact mem_check_of_mem_send h hs (errlog_mem_send_of_send_exn hg hsend)
  · intro s hg hsend
    exact mem_check_of_mem_send h hs (faillog_mem_send hg hsend)

/-- Witness for C2: with shift 1's summary fetch raising `boom`,
shift 2's attempt still occurs and shift 1's error is logged with its
id. -/
theorem per_shift_failure_isolation_witness :
    Event.storeGetSummary exRec2.id exRec2.chat_id ∈ (checkAutoCloseShifts true exBehavior).1 ∧
    Event.log ("Error sending shift summary for shift " ++ toString exRec1.id ++ ": " ++ "boom")
      ∈ (checkAutoCloseShifts true exBehavior).1 :=
  ⟨(per_shift_failure_isolation exBehavior [exRec1, exRec2] rfl exRec2 (by decide)).1,
   (per_shift_failure_isolation exBehavior [exRec1, exRec2] rfl exRec1 (by decide)).2.1
     "boom" (by decide)⟩

/-- C6: a cycle whose close operation returns the empty list performs
zero notification attempts (no summary fetch, no send call) and logs
the explicit no-shifts-closed outcome. -/
theorem empty_close_no_attempts (bot : Bool) (b : Behavior)
    (h : b.closeShifts = ExnOr.ok []) :
    countGetSummary (checkAutoCloseShifts bot b).1 = 0 ∧
    countSend (checkAutoCloseShifts bot b).1 = 0 ∧
    Event.log "No shifts needed auto-closing" ∈ (checkAutoCloseShifts bot b).1 := by
  rw [check_trace_nil bot b h]
  exact ⟨rfl, rfl, by simp⟩

/-- Witness for C6 at a behaviour returning the empty list. -/
theorem empty_close_no_attempts_witness :
    countGetSummary (checkAutoCloseShifts true exEmptyBehavior).1 = 0 ∧
    countSend (checkAutoCloseShifts true exEmptyBehavior).1 = 0 ∧
    Event.log "No shifts needed auto-closing" ∈ (checkAutoCloseShifts true exEmptyBehavior).1 :=
  empty_close_no_attempts true exEmptyBehavior rfl

/-- C7: whatever the collaborators do (any of the three calls may
raise), no exception escapes `_send_shift_summary`, no exception
escapes `check_auto_close_shifts`, and no exception escapes the
loop body: every exception branch of the model is caught at the
per-shift or cycle boundary. -/
theorem no_exception_escapes (bot : Bool) (b : Behavior) (shift : ClosedShiftRecord) :
    (sendShiftSummary b shift).2 = none ∧
    (checkAutoCloseShifts bot b).2 = none ∧
    (loopBody bot b).2 = none := by
  refine ⟨sendShiftSummary_snd_none b shift, check_snd_none bot b, ?_⟩
  rw [loopBody_eq]

/-- C8: the notification sub-step never performs the shift store's
mutating close operation (so the committed closure cannot be touched,
let alone rolled back), and performs at most one `send_message` call
per closed shift. -/
theorem notification_frame_effect (b : Behavior) (shift : ClosedShiftRecord) :
    countStoreClose (sendShiftSummary b shift).1 = 0 ∧
    countSend (sendShiftSummary b shift).1 ≤ 1 :=
  ⟨sendShiftSummary_count_close b shift, sendShiftSummary_count_send_le_one b shift⟩

/-- C9: with a falsy `bot_service`, a cycle makes no notification
attempt at all (no summary fetch and no send) yet still emits the
per-shift closure log line for every record the store returned. -/
theorem no_bot_service_no_attempts (b : Behavior) (recs : List ClosedShiftRecord)
    (h : b.closeShifts = ExnOr.ok recs) :
    countGetSummary (checkAutoCloseShifts false b).1 = 0 ∧
    countSend (checkAutoCloseShifts false b).1 = 0 ∧
    ∀ shift ∈ recs,
      Event.log ("Auto-closed shift " ++ toString shift.id ++ " for chat "
        ++ toString shift.chat_id) ∈ (checkAutoCloseShifts false b).1 := by
  rcases recs with _ | ⟨r, rs⟩
  · rw [check_trace_nil false b h]
    exact ⟨rfl, rfl, fun shift hs => absurd hs (List.not_mem_nil shift)⟩
  · rw [check_trace_cons false b r rs h]
    refine ⟨?_, ?_, ?_⟩
    · have h1 := flatten_count_get_false b (r :: rs)
      simp only [countGetSummary, List.countP_cons] at h1 ⊢
      rw [h1]
      rfl
    · have h1 := flatten_count_send_false b (r :: rs)
      simp only [countSend, List.countP_cons] at h1 ⊢
      rw [h1]
      rfl
    · intro shift hs
      have hmem : Event.log ("Auto-closed shift " ++ toString shift.id ++ " for chat "
          ++ toString shift.chat_id) ∈ ((r :: rs).map (perShift false b)).flatten :=
        List.mem_flatten.mpr
          ⟨perShift false b shift, List.mem_map_of_mem _ hs, by simp [perShift]⟩
      exact List.mem_cons_of_mem _ (List.mem_cons_of_mem _ (List.mem_cons_of_mem _ hmem))

/-- Witness for C9: two shifts close with no bot service; no attempt
occurs and shift 1's closure log is still present. -/
theorem no_bot_service_no_attempts_witness :
    countGetSummary (checkAutoCloseShifts false exBehavior).1 = 0 ∧
    Event.log ("Auto-closed shift " ++ toString exRec1.id ++ " for chat "
      ++ toString exRec1.chat_id) ∈ (checkAutoCloseShifts false exBehavior).1 :=
  ⟨(no_bot_service_no_attempts exBehavior [exRec1, exRec2] rfl).1,
   (no_bot_service_no_attempts exBehavior [exRec1, exRec2] rfl).2.2 exRec1 (by decide)⟩

/-- C10: the currency-symbol selection on lines 84-86 is the identity:
both branches of the conditional return the currency key itself, so
every breakdown line renders the raw currency key as its symbol. -/
theorem currency_symbol_identity (currency : String) :
    currencySymbol currency = currency := by
  unfold currencySymbol
  split <;> rfl

/-- C3: if the check cycle of iteration `n` fails because the store's
close operation raises, the error is logged and swallowed, the loop
still sleeps the fixed 60 seconds, and — the scheduler not having
been stopped — iteration `n + 1` executes a full further cycle
(including its store call): one failing cycle never terminates the
running scheduler. -/
theorem scheduler_fail_open_retry (bot : Bool) (beh : Nat → Behavior)
    (stopped : Nat → Bool) (fuel n : Nat) (e : String)
    (h0 : stopped n = false) (h1 : stopped (n + 1) = false)
    (he : (beh n).closeShifts = ExnOr.exn e) :
    Event.log ("Error in auto-close shift check: " ++ e)
      ∈ runLoop bot beh stopped (fuel + 2) n ∧
    runLoop bot beh stopped (fuel + 2) n =
      ((checkAutoCloseShifts bot (beh n)).1 ++ [Event.sleep 60])
        ++ (((checkAutoCloseShifts bot (beh (n + 1))).1 ++ [Event.sleep 60])
          ++ runLoop bot beh stopped fuel (n + 2)) ∧
    Event.storeClose ∈ (checkAutoCloseShifts bot (beh (n + 1))).1 := by
  have key : runLoop bot beh stopped (fuel + 2) n =
      ((checkAutoCloseShifts bot (beh n)).1 ++ [Event.sleep 60])
        ++ (((checkAutoCloseShifts bot (beh (n + 1))).1 ++ [Event.sleep 60])
          ++ runLoop bot beh stopped fuel (n + 2)) := by
    rw [show fuel + 2 = fuel + 1 + 1 from rfl,
        runLoop_succ bot beh stopped (fuel + 1) n h0,
        runLoop_succ bot beh stopped fuel (n + 1) h1]
  refine ⟨?_, key, storeClose_mem_check bot (beh (n + 1))⟩
  rw [key]
  apply List.mem_append_left
  apply List.mem_append_left
  rw [check_trace_exn bot (beh n) e he]
  simp

/-- Witness for C3: with the close operation raising `db down` in
every cycle and no stop signal, the error log appears in a 2-cycle
run starting at iteration 0. -/
theorem scheduler_fail_open_retry_witness :
    Event.log ("Error in auto-close shift check: " ++ "db down")
      ∈ runLoop true exBehSeq exStopNever 2 0 :=
  (scheduler_fail_open_retry true exBehSeq exStopNever 0 0 "db down" rfl rfl rfl).1

/-- C4: if the stop flag is observed raised at the top of iteration
`n + 1` (stop was called during cycle `n` or its sleep), the in-flight
cycle `n` runs to completion (its full trace, ending with the 60 s
sleep) without raising, the loop then exits, and no further
`check_auto_close_shifts` call occurs — the whole remaining run
contains exactly the one store call of cycle `n`.  `stop_scheduler`
itself clears `is_running` and returns without raising. -/
theorem stop_scheduler_halts_loop (bot : Bool) (beh : Nat → Behavior)
    (stopped : Nat → Bool) (fuel n : Nat) (s : SchedulerState)
    (hn : stopped n = false) (hn1 : stopped (n + 1) = true) :
    runLoop bot beh stopped (fuel + 1) n =
      (checkAutoCloseShifts bot (beh n)).1 ++ [Event.sleep 60] ∧
    countStoreClose (runLoop bot beh stopped (fuel + 1) n) = 1 ∧
    (checkAutoCloseShifts bot (beh n)).2 = none ∧
    (stopScheduler s).1.is_running = false ∧
    (stopScheduler s).2.2 = none := by
  have key : runLoop bot beh stopped (fuel + 1) n =
      (checkAutoCloseShifts bot (beh n)).1 ++ [Event.sleep 60] := by
    rw [runLoop_succ bot beh stopped fuel n hn,
        runLoop_stopped bot beh stopped fuel (n + 1) hn1]
    simp
  refine ⟨key, ?_, check_snd_none bot (beh n), rfl, rfl⟩
  rw [key]
  have h1 := check_count_close bot (beh n)
  simp only [countStoreClose, List.countP_append] at h1 ⊢
  rw [h1]
  rfl

/-- Witness for C4: stop observed at iteration 1 after a normal
iteration 0. -/
theorem stop_scheduler_halts_loop_witness :
    runLoop true exBehSeq exStopAfter1 3 0 =
      (checkAutoCloseShifts true (exBehSeq 0)).1 ++ [Event.sleep 60] ∧
    countStoreClose (runLoop true exBehSeq exStopAfter1 3 0) = 1 ∧
    (checkAutoCloseShifts true (exBehSeq 0)).2 = none ∧
    (stopScheduler ⟨true⟩).1.is_running = false ∧
    (stopScheduler ⟨true⟩).2.2 = none :=
  stop_scheduler_halts_loop true exBehSeq exStopAfter1 2 0 ⟨true⟩ rfl rfl

/-- C5: for every income summary, the formatted message contains, when
`transaction_count > 0`, each per-currency breakdown line (symbol,
amount and count) of the currencies mapping together with the total
transaction count and total amount lines; when `transaction_count`
is 0, the no-transactions variant; and in both variants the shift
number tag and the auto-closed-by-timer footer. -/
theorem shift_message_format_spec (shiftNumber : Int) (summary : IncomeSummary) :
    (0 < summary.transaction_count →
      (∀ p ∈ summary.currencies,
        strContains (formatShiftMessage shiftNumber summary) (currencyLine p.1 p.2)) ∧
      strContains (formatShiftMessage shiftNumber summary)
        ("• ចំនួនប្រតិបត្តិការសរុប: " ++ toString summary.transaction_count) ∧
      strContains (formatShiftMessage shiftNumber summary)
        ("• តម្លៃសរុប: " ++ formatMoney summary.total_amount)) ∧
    (summary.transaction_count = 0 →
      strContains (formatShiftMessage shiftNumber summary) "• មិនមានប្រតិបត្តិការ") ∧
    strContains (formatShiftMessage shiftNumber summary)
      ("វេន #" ++ toString shiftNumber) ∧
    strContains (formatShiftMessage shiftNumber summary)
      "⚡ បិទដោយ: ការកំណត់ពេលវេលាស្វ័យប្រវត្តិ" := by
  by_cases hc : 0 < summary.transaction_count
  · simp only [formatShiftMessage, if_pos hc]
    refine ⟨fun _ => ⟨?_, ?_, ?_⟩, fun h0 => absurd hc (by omega), ?_, ?_⟩
    · intro p hp
      have hJ : strContains
          (joinNL (summary.currencies.map fun q => currencyLine q.1 q.2))
          (currencyLine p.1 p.2) :=
        strContains_joinNL (List.mem_map_of_mem _ hp)
      exact strContains_appendLeft (strContains_appendLeft (strContains_appendLeft
        (strContains_appendLeft (strContains_appendLeft
          (strContains_appendRight hJ _) _) _) _) _) _
    · refine strContains_appendLeft (strContains_appendLeft (strContains_appendLeft
        (strContains_append_lit_append ?_ _) _) _) _
      decide
    · refine strContains_appendLeft (strContains_append_lit_append ?_ _) _
      decide
    · refine strContains_appendLeft (strContains_appendLeft (strContains_appendLeft
        (strContains_appendLeft (strContains_appendLeft (strContains_appendLeft
          (strContains_appendLeft (strContains_lit_append ?_ _) _) _) _) _) _) _) _
      decide
    · refine strContains_appendRight (strContains_of_suffix ?_) _
      decide
  · simp only [formatShiftMessage, if_neg hc]
    refine ⟨fun h => absurd h hc, fun _ => ?_, ?_, ?_⟩
    · exact strContains_appendLeft (strContains_appendRight (strContains_self _) _) _
    · refine strContains_appendLeft (strContains_appendLeft (strContains_appendLeft
        (strContains_lit_append ?_ _) _) _) _
      decide
    · refine strContains_appendRight (strContains_of_suffix ?_) _
      decide

set_option maxRecDepth 20000 in
/-- Witness for C5: on the spec's example (3 transactions, currencies
dollar 45.50 with count 2 and riel 1,000.00 with count 1), the
message contains both currency lines and the total of 3. -/
theorem shift_message_format_spec_witness :
    strContains (formatShiftMessage 7 exSummary) "• $45.50 (2 transactions)" ∧
    strContains (formatShiftMessage 7 exSummary) "• ៛1,000.00 (1 transactions)" ∧
    strContains (formatShiftMessage 7 exSummary) "• ចំនួនប្រតិបត្តិការសរុប: 3" := by
  obtain ⟨hpos, _, _, _⟩ := shift_message_format_spec 7 exSummary
  obtain ⟨hlines, hcount, _⟩ := hpos (by decide)
  refine ⟨?_, ?_, ?_⟩
  · have h1 : strContains (formatShiftMessage 7 exSummary) (currencyLine "$" ⟨4550, 2⟩) :=
      hlines ("$", ⟨4550, 2⟩) (by decide)
    have he : currencyLine "$" ⟨4550, 2⟩ = "• $45.50 (2 transactions)" := by decide
    exact he ▸ h1
  · have h1 : strContains (formatShiftMessage 7 exSummary) (currencyLine "៛" ⟨100000, 1⟩) :=
      hlines ("៛", ⟨100000, 1⟩) (by decide)
    have he : currencyLine "៛" ⟨100000, 1⟩ = "• ៛1,000.00 (1 transactions)" := by decide
    exact he ▸ h1
  · have he : ("• ចំនួនប្រតិបត្តិការសរុប: " ++ toString exSummary.transaction_count)
        = "• ចំនួនប្រតិបត្តិការសរុប: 3" := by decide
    exact he ▸ hcount
